import Mathlib

/-!
Verification of the risk-scoring and error-handling logic of the
project-risk-report repository, shallowly embedded from `src/config.py`,
`src/utils.py`, `src/tools.py` and `src/data_handlers.py`.
Python numbers are modeled as rationals, Python ints as integers, dictionary
access via `get` with a default as `Option.getD`, and the outcomes of external
calls (LLM, vector database, JSON parsing) as explicit parameters.
-/

set_option maxHeartbeats 1000000

namespace ProjectRiskReport

/-- Risk levels, from `config.RiskLevel` (src/config.py lines 27-31). -/
inductive RiskLevel
  | LOW
  | MEDIUM
  | HIGH
  | CRITICAL
deriving DecidableEq, Repr

/-- String value of a risk level, mirroring the Python enum values. -/
def RiskLevel.value : RiskLevel → String
  | .LOW => "low"
  | .MEDIUM => "medium"
  | .HIGH => "high"
  | .CRITICAL => "critical"

/-- Score thresholds per level, from `config.RISK_SCORE_THRESHOLDS`
(src/config.py lines 33-38). -/
def RISK_SCORE_THRESHOLDS : RiskLevel → ℤ
  | .LOW => 25
  | .MEDIUM => 50
  | .HIGH => 75
  | .CRITICAL => 90

/-- Category weights out of 100, from `config.RISK_IMPACT_WEIGHTS`
(src/config.py lines 54-64); `RISK_IMPACT_WEIGHTS c d` mirrors the Python
dictionary lookup `config.RISK_IMPACT_WEIGHTS.get(c, d)`. -/
def RISK_IMPACT_WEIGHTS (c : String) (dflt : ℚ) : ℚ :=
  if c = "Financial" then 25
  else if c = "Resource" then 20
  else if c = "Schedule" then 15
  else if c = "Technical" then 15
  else if c = "Operational" then 10
  else if c = "Market" then 5
  else if c = "Customer" then 5
  else if c = "Regulatory" then 3
  else if c = "Strategic" then 2
  else dflt

/-- A risk dictionary as consumed by `calculate_risk_score` (src/utils.py):
exactly the keys the function reads through `risk.get`, each `Option` to model a
possibly missing key. -/
structure Risk where
  probability : Option ℚ := none
  impact : Option ℚ := none
  category : Option String := none
deriving DecidableEq, Repr

/-- Python `round` on a rational: nearest integer, ties to even. -/
def pyRound (q : ℚ) : ℤ :=
  let f : ℤ := q.floor
  let frac : ℚ := q - f
  if frac < 1/2 then f
  else if 1/2 < frac then f + 1
  else if f % 2 = 0 then f else f + 1

theorem rat_floor_eq_floor (q : ℚ) : q.floor = ⌊q⌋ := by
  rw [Rat.floor_def', Rat.floor_def]

/-- Body of the `for risk in risks` loop of `utils.calculate_risk_score`
(src/utils.py lines 92-110): the weighted score contributed by one risk. -/
def riskTerm (risk : Risk) : ℚ :=
  let probability := risk.probability.getD 0
  let probability := if probability > 1 then probability / 100 else probability
  let impact := risk.impact.getD 0
  let impact := if impact > 1 then impact / 100 else impact
  let risk_score := probability * impact * 100
  let category := risk.category.getD ""
  let weight := RISK_IMPACT_WEIGHTS category 1 / 100
  risk_score * weight

/-- `utils.calculate_risk_score` (src/utils.py lines 78-113). -/
def calculate_risk_score (risks : List Risk) : ℤ :=
  if risks.isEmpty then 0
  else
    let total_score := risks.foldl (fun acc risk => acc + riskTerm risk) 0
    min 100 (pyRound total_score)

/-- `utils.get_risk_level` (src/utils.py lines 115-132), parameterized by the
thresholds table it reads so that dependence on individual entries can be
stated; the source reads `config.RISK_SCORE_THRESHOLDS`. -/
def get_risk_level_thresholds (thresholds : RiskLevel → ℤ) (score : ℤ) : RiskLevel :=
  if score ≤ thresholds .LOW then .LOW
  else if score ≤ thresholds .MEDIUM then .MEDIUM
  else if score ≤ thresholds .HIGH then .HIGH
  else .CRITICAL

/-- `utils.get_risk_level` applied to the configured thresholds. -/
def get_risk_level (score : ℤ) : RiskLevel :=
  get_risk_level_thresholds RISK_SCORE_THRESHOLDS score

/-- Severity rank of a risk level, in declaration order. -/
def RiskLevel.rank : RiskLevel → ℕ
  | .LOW => 0
  | .MEDIUM => 1
  | .HIGH => 2
  | .CRITICAL => 3

/-- Stated from the words of the spec for claim C1: normalization of a
probability or impact value, dividing by 100 when it exceeds 1. -/
def specNormalize (v : ℚ) : ℚ := if v > 1 then v / 100 else v

/-- Stated from the words of the spec for claim C1: the weighted score
p·i·100·(categoryWeight/100) of a single risk. -/
def specWeightedScore (risk : Risk) : ℚ :=
  specNormalize (risk.probability.getD 0) * specNormalize (risk.impact.getD 0) * 100 *
    (RISK_IMPACT_WEIGHTS (risk.category.getD "") 1 / 100)

/-- Stated from the words of the spec for claim C1: the total clamped to
[0, 100] at both ends, with no rounding. -/
def specClampedScore (risks : List Risk) : ℚ :=
  max 0 (min 100 ((risks.map specWeightedScore).sum))

theorem foldl_add_eq_sum (f : Risk → ℚ) (l : List Risk) (a : ℚ) :
    l.foldl (fun acc r => acc + f r) a = a + (l.map f).sum := by
  induction l generalizing a with
  | nil => simp
  | cons x xs ih => simp [ih, add_assoc]

theorem riskTerm_eq_specWeightedScore (r : Risk) : riskTerm r = specWeightedScore r := rfl

theorem pyRound_eq_of_lt (q : ℚ) (n : ℤ) (h1 : (n:ℚ) ≤ q) (h2 : q - n < 1/2) :
    pyRound q = n := by
  have hf : ⌊q⌋ = n := by
    rw [Int.floor_eq_iff]
    exact ⟨h1, by linarith⟩
  simp only [pyRound, rat_floor_eq_floor, hf]
  rw [if_pos h2]

theorem pyRound_zero : pyRound 0 = 0 := by
  have h := pyRound_eq_of_lt (0 : ℚ) 0 (by norm_num) (by norm_num)
  simpa using h

theorem pyRound_nonneg (q : ℚ) (hq : 0 ≤ q) : 0 ≤ pyRound q := by
  have h0 : (0:ℤ) ≤ ⌊q⌋ := Int.floor_nonneg.mpr hq
  simp only [pyRound, rat_floor_eq_floor]
  split_ifs <;> omega

theorem RISK_IMPACT_WEIGHTS_pos (c : String) (d : ℚ) (hd : 0 < d) :
    0 < RISK_IMPACT_WEIGHTS c d := by
  unfold RISK_IMPACT_WEIGHTS
  split_ifs <;> first | exact hd | norm_num

theorem riskTerm_nonneg (r : Risk) (hp : 0 ≤ r.probability.getD 0)
    (hi : 0 ≤ r.impact.getD 0) : 0 ≤ riskTerm r := by
  have hw : 0 < RISK_IMPACT_WEIGHTS (r.category.getD "") 1 :=
    RISK_IMPACT_WEIGHTS_pos _ _ one_pos
  simp only [riskTerm]
  have hp' : 0 ≤ (if r.probability.getD 0 > 1 then r.probability.getD 0 / 100
      else r.probability.getD 0) := by
    split_ifs
    · exact div_nonneg hp (by norm_num)
    · exact hp
  have hi' : 0 ≤ (if r.impact.getD 0 > 1 then r.impact.getD 0 / 100
      else r.impact.getD 0) := by
    split_ifs
    · exact div_nonneg hi (by norm_num)
    · exact hi
  exact mul_nonneg (mul_nonneg (mul_nonneg hp' hi') (by norm_num))
    (le_of_lt (div_pos hw (by norm_num)))

/-- C5: `calculate_risk_score` applied to the empty list of risks returns 0. -/
theorem C5_empty_score : calculate_risk_score [] = 0 := rfl

/-- C6: on the single risk with probability 0.3, impact 0.9 and category
Security, `calculate_risk_score` returns round(0.3·0.9·100·0.01); the category
Security is absent from `RISK_IMPACT_WEIGHTS`, so the default weight 1 applies,
and the returned value is 0. -/
theorem C6_single_security_risk :
    calculate_risk_score
        [{ probability := some (3/10), impact := some (9/10), category := some "Security" }]
      = pyRound ((3/10 : ℚ) * (9/10) * 100 * (1/100))
    ∧ RISK_IMPACT_WEIGHTS "Security" 1 = 1
    ∧ calculate_risk_score
        [{ probability := some (3/10), impact := some (9/10), category := some "Security" }]
      = 0 := by
  have hw : RISK_IMPACT_WEIGHTS "Security" 1 = 1 := rfl
  have ht : riskTerm
      { probability := some (3/10), impact := some (9/10), category := some "Security" }
      = 27/100 := by
    simp only [riskTerm, Option.getD_some]
    rw [hw]
    norm_num
  have hp27 : pyRound (27/100 : ℚ) = 0 := pyRound_eq_of_lt _ 0 (by norm_num) (by norm_num)
  have hc : calculate_risk_score
      [{ probability := some (3/10), impact := some (9/10), category := some "Security" }]
      = 0 := by
    simp only [calculate_risk_score, List.isEmpty_cons, List.foldl_cons, List.foldl_nil,
      zero_add, ht, Bool.false_eq_true, if_false, hp27]
    decide
  have hval : pyRound ((3/10 : ℚ) * (9/10) * 100 * (1/100)) = 0 := by
    have : ((3/10 : ℚ) * (9/10) * 100 * (1/100)) = 27/100 := by norm_num
    rw [this, hp27]
  exact ⟨by rw [hc, hval], hw, hc⟩

/-- C1 counterexample: on the single risk with probability -2 and impact 0.5 the
code returns -1, while the claimed formula clamp(sum, 0, 100) yields 0: the code
has no clamp below 0 (and also rounds the total to an integer). -/
theorem C1_counterexample :
    calculate_risk_score [{ probability := some (-2), impact := some (1/2) }] = -1
    ∧ specClampedScore [{ probability := some (-2), impact := some (1/2) }] = 0
    ∧ ((calculate_risk_score [{ probability := some (-2), impact := some (1/2) }] : ℚ)
        ≠ specClampedScore [{ probability := some (-2), impact := some (1/2) }]) := by
  have hw : RISK_IMPACT_WEIGHTS "" 1 = 1 := rfl
  have ht : riskTerm { probability := some (-2), impact := some (1/2) } = -1 := by
    simp only [riskTerm, Option.getD_some, Option.getD_none]
    rw [hw]
    norm_num
  have hpm1 : pyRound (-1 : ℚ) = -1 := by
    have h := pyRound_eq_of_lt (-1 : ℚ) (-1) (by norm_num) (by norm_num)
    simpa using h
  have hc : calculate_risk_score [{ probability := some (-2), impact := some (1/2) }] = -1 := by
    simp only [calculate_risk_score, List.isEmpty_cons, List.foldl_cons, List.foldl_nil,
      zero_add, ht, Bool.false_eq_true, if_false, hpm1]
    decide
  have hs : specClampedScore [{ probability := some (-2), impact := some (1/2) }] = 0 := by
    have hterm : specWeightedScore { probability := some (-2), impact := some (1/2) } = -1 := by
      rw [← riskTerm_eq_specWeightedScore]
      exact ht
    simp only [specClampedScore, List.map_cons, List.map_nil, List.sum_cons, List.sum_nil,
      add_zero, hterm]
    rw [min_eq_right (by norm_num : (-1 : ℚ) ≤ 100), max_eq_left (by norm_num : (-1 : ℚ) ≤ 0)]
  refine ⟨hc, hs, ?_⟩
  rw [hc, hs]
  norm_num

/-- C1 amended: for every list of risks, `calculate_risk_score` returns
min(100, round(sum of weighted scores)) with round half-to-even; the total is
clamped above at 100 only, not below at 0. -/
theorem C1_amended_formula (risks : List Risk) :
    calculate_risk_score risks = min 100 (pyRound ((risks.map specWeightedScore).sum)) := by
  cases risks with
  | nil =>
    simp only [calculate_risk_score, List.isEmpty_nil, if_pos, List.map_nil, List.sum_nil,
      pyRound_zero]
    decide
  | cons r rs =>
    simp only [calculate_risk_score, List.isEmpty_cons, Bool.false_eq_true, if_false]
    rw [foldl_add_eq_sum, zero_add]
    rfl

/-- C3 counterexample: with a single risk of probability -4 and impact 0.5 the
returned score is -2, outside [0, 100]. -/
theorem C3_counterexample :
    calculate_risk_score [{ probability := some (-4), impact := some (1/2) }] = -2
    ∧ ¬(0 ≤ calculate_risk_score [{ probability := some (-4), impact := some (1/2) }]
        ∧ calculate_risk_score [{ probability := some (-4), impact := some (1/2) }] ≤ 100) := by
  have hw : RISK_IMPACT_WEIGHTS "" 1 = 1 := rfl
  have ht : riskTerm { probability := some (-4), impact := some (1/2) } = -2 := by
    simp only [riskTerm, Option.getD_some, Option.getD_none]
    rw [hw]
    norm_num
  have hpm2 : pyRound (-2 : ℚ) = -2 := by
    have h := pyRound_eq_of_lt (-2 : ℚ) (-2) (by norm_num) (by norm_num)
    simpa using h
  have hc : calculate_risk_score [{ probability := some (-4), impact := some (1/2) }] = -2 := by
    simp only [calculate_risk_score, List.isEmpty_cons, List.foldl_cons, List.foldl_nil,
      zero_add, ht, Bool.false_eq_true, if_false, hpm2]
    decide
  refine ⟨hc, ?_⟩
  rw [hc]
  decide

/-- C3 amended: the returned score is always at most 100, and it lies in
[0, 100] whenever every risk in the list has nonnegative probability and impact
values (missing keys defaulting to 0). -/
theorem C3_amended_bounds (risks : List Risk) :
    calculate_risk_score risks ≤ 100
    ∧ ((∀ r ∈ risks, 0 ≤ r.probability.getD 0 ∧ 0 ≤ r.impact.getD 0) →
        0 ≤ calculate_risk_score risks) := by
  constructor
  · simp only [calculate_risk_score]
    split_ifs
    · norm_num
    · exact min_le_left _ _
  · intro h
    simp only [calculate_risk_score]
    split_ifs
    · norm_num
    · refine le_min (by norm_num) ?_
      rw [foldl_add_eq_sum, zero_add]
      refine pyRound_nonneg _ (List.sum_nonneg ?_)
      intro x hx
      obtain ⟨r, hr, rfl⟩ := List.mem_map.mp hx
      exact riskTerm_nonneg r (h r hr).1 (h r hr).2

/-- Sample risk used in the bounds and permutation witnesses. -/
def sampleRiskA : Risk :=
  { probability := some 1, impact := some 1, category := some "Financial" }

/-- Witness for the amended C3 at a concrete one-risk list. -/
theorem C3_witness :
    calculate_risk_score [sampleRiskA] ≤ 100
    ∧ 0 ≤ calculate_risk_score [sampleRiskA] :=
  ⟨(C3_amended_bounds _).1, (C3_amended_bounds _).2 (by simp [sampleRiskA])⟩

/-- C4: the score is invariant under permutation of the risk list. -/
theorem C4_perm_invariant (l₁ l₂ : List Risk) (h : l₁.Perm l₂) :
    calculate_risk_score l₁ = calculate_risk_score l₂ := by
  have hsum : (l₁.map riskTerm).sum = (l₂.map riskTerm).sum := (h.map riskTerm).sum_eq
  have hemp : l₁.isEmpty = l₂.isEmpty := by
    have hlen := h.length_eq
    cases l₁ <;> cases l₂ <;> simp_all
  simp only [calculate_risk_score]
  rw [hemp, foldl_add_eq_sum, foldl_add_eq_sum, hsum]

/-- Second sample risk used in the permutation witness. -/
def sampleRiskB : Risk := { category := some "Market" }

/-- Witness for C4: swapping a two-element risk list preserves the score. -/
theorem C4_witness :
    calculate_risk_score [sampleRiskA, sampleRiskB]
      = calculate_risk_score [sampleRiskB, sampleRiskA] :=
  C4_perm_invariant _ _ (List.Perm.swap sampleRiskB sampleRiskA [])

/-- C2: `get_risk_level` is monotone non-decreasing in the score and maps scores
with inclusive upper boundaries: at most 25 LOW, 26 to 50 MEDIUM, 51 to 75 HIGH,
and strictly above 75 CRITICAL; in particular 25 gives LOW and 26 gives MEDIUM. -/
theorem C2_level_monotone_buckets :
    (∀ s t : ℤ, s ≤ t → (get_risk_level s).rank ≤ (get_risk_level t).rank)
    ∧ (∀ s : ℤ, get_risk_level s =
        if s ≤ 25 then .LOW else if s ≤ 50 then .MEDIUM
        else if s ≤ 75 then .HIGH else .CRITICAL)
    ∧ get_risk_level 25 = .LOW ∧ get_risk_level 26 = .MEDIUM := by
  refine ⟨?_, fun s => rfl, rfl, rfl⟩
  intro s t hst
  simp only [get_risk_level, get_risk_level_thresholds, RISK_SCORE_THRESHOLDS]
  split_ifs <;> simp only [RiskLevel.rank] <;> omega

/-- Witness for C2 at concrete scores 10 and 60. -/
theorem C2_witness : (get_risk_level 10).rank ≤ (get_risk_level 60).rank :=
  C2_level_monotone_buckets.1 10 60 (by decide)

/-- C10: `get_risk_level` never consults the CRITICAL threshold entry — the
result is unchanged under any value of that entry — every score strictly above
75 maps to CRITICAL, hence the scores 76 through 90 are CRITICAL even though the
configured CRITICAL threshold is 90. -/
theorem C10_critical_threshold_unused :
    (∀ c s : ℤ,
      get_risk_level_thresholds
        (fun l => if l = .CRITICAL then c else RISK_SCORE_THRESHOLDS l) s
        = get_risk_level s)
    ∧ (∀ s : ℤ, 75 < s → get_risk_level s = .CRITICAL)
    ∧ (∀ s : ℤ, 76 ≤ s → s ≤ 90 → get_risk_level s = .CRITICAL)
    ∧ RISK_SCORE_THRESHOLDS .CRITICAL = 90 := by
  refine ⟨fun c s => rfl, fun s hs => ?_, fun s h1 h2 => ?_, rfl⟩
  · simp only [get_risk_level, get_risk_level_thresholds, RISK_SCORE_THRESHOLDS]
    split_ifs <;> first | rfl | (exfalso; omega)
  · simp only [get_risk_level, get_risk_level_thresholds, RISK_SCORE_THRESHOLDS]
    split_ifs <;> first | rfl | (exfalso; omega)

/-- Witness for C10 at score 80 and a hypothetical CRITICAL threshold 1000. -/
theorem C10_witness :
    get_risk_level 80 = .CRITICAL
    ∧ get_risk_level_thresholds
        (fun l => if l = .CRITICAL then 1000 else RISK_SCORE_THRESHOLDS l) 80
      = get_risk_level 80 :=
  ⟨C10_critical_threshold_unused.2.1 80 (by decide),
   C10_critical_threshold_unused.1 1000 80⟩

/-- A stored report as read by `AnalyzeRiskTrendsTool._run` (src/tools.py lines
392-398): the two keys the tool extracts via `report.get`, each `Option` to
model a possibly missing key. -/
structure Report where
  timestamp : Option String := none
  overall_score : Option ℤ := none
deriving DecidableEq, Repr

/-- A score-history entry with keys timestamp and score (src/tools.py lines
392-398). -/
structure ScoreEntry where
  timestamp : String
  score : ℤ
deriving DecidableEq, Repr

/-- Extraction of score entries from the stored reports (src/tools.py lines
392-398). -/
def extractScores (reports : List Report) : List ScoreEntry :=
  reports.map fun report =>
    { timestamp := report.timestamp.getD "", score := report.overall_score.getD 0 }

/-- The stable Python sort by the timestamp key (src/tools.py line 401). -/
def sortScores (scores : List ScoreEntry) : List ScoreEntry :=
  scores.mergeSort (fun a b => decide (a.timestamp ≤ b.timestamp))

/-- The trend classification from the score difference (src/tools.py lines
409-417). -/
def trendFromDiff (difference : ℤ) : String :=
  if difference > 5 then "increasing"
  else if difference < -5 then "decreasing"
  else "stable"

/-- The trend computed by `AnalyzeRiskTrendsTool._run` (src/tools.py lines
377-459) from the stored reports of the project (the result of the external
`get_project_reports` call); the LLM is only asked to write prose about the
already-computed trend and does not affect it. -/
def analyzeRiskTrends_trend (reports : List Report) : String :=
  if reports.isEmpty then "No historical data available"
  else
    let scores := sortScores (extractScores reports)
    if 2 ≤ scores.length then
      let first_score := (scores.headD ⟨"", 0⟩).score
      let last_score := (scores.getLastD ⟨"", 0⟩).score
      let difference := last_score - first_score
      if difference > 5 then "increasing"
      else if difference < -5 then "decreasing"
      else "stable"
    else "insufficient_data"

/-- C7: with at least two score entries the trend is a threshold comparison on
exactly two data points — the first and last scores after sorting by timestamp:
increasing when their difference exceeds 5, decreasing when it is below -5,
stable otherwise; with one report the trend is insufficient_data and with none
no trend is computed at all. -/
theorem C7_trend_two_points (reports : List Report) :
    (2 ≤ reports.length →
      analyzeRiskTrends_trend reports =
        trendFromDiff
          (((sortScores (extractScores reports)).getLastD ⟨"", 0⟩).score
            - ((sortScores (extractScores reports)).headD ⟨"", 0⟩).score))
    ∧ (reports.length = 1 → analyzeRiskTrends_trend reports = "insufficient_data")
    ∧ (reports.length = 0 →
        analyzeRiskTrends_trend reports = "No historical data available") := by
  have hlen : (sortScores (extractScores reports)).length = reports.length := by
    simp [sortScores, extractScores]
  refine ⟨fun h2 => ?_, fun h1 => ?_, fun h0 => ?_⟩
  · have hne : reports.isEmpty = false := by
      cases reports <;> simp_all
    simp only [analyzeRiskTrends_trend, hne, Bool.false_eq_true, if_false]
    rw [hlen, if_pos h2]
    rfl
  · have hne : reports.isEmpty = false := by
      cases reports <;> simp_all
    simp only [analyzeRiskTrends_trend, hne, Bool.false_eq_true, if_false]
    rw [hlen, h1, if_neg (by omega)]
  · cases reports with
    | nil => rfl
    | cons r rs => simp at h0

/-- Sample report used in the trend witness. -/
def sampleReportA : Report := { timestamp := some "2024-01-01", overall_score := some 10 }

/-- Second sample report used in the trend witness. -/
def sampleReportB : Report := { timestamp := some "2024-02-01", overall_score := some 40 }

/-- Witness for C7 on a concrete two-report history. -/
theorem C7_witness :
    analyzeRiskTrends_trend [sampleReportA, sampleReportB] =
      trendFromDiff
        (((sortScores (extractScores [sampleReportA, sampleReportB])).getLastD ⟨"", 0⟩).score
          - ((sortScores (extractScores [sampleReportA, sampleReportB])).headD ⟨"", 0⟩).score) :=
  (C7_trend_two_points _).1 (by decide)

/-- A minimal model of Python JSON-like values as passed around by the tools. -/
inductive PyVal
  | str (s : String)
  | int (n : ℤ)
  | num (q : ℚ)
  | bool (b : Bool)
  | list (items : List PyVal)
  | dict (items : List (String × PyVal))

/-- Lookup of a key in the pair list of a Python dict (first match). -/
def lookupPairs : List (String × PyVal) → String → Option PyVal
  | [], _ => none
  | (k, v) :: rest, key => if k = key then some v else lookupPairs rest key

/-- Python `d.get(key)`: `none` when the value is not a dict or lacks the key. -/
def PyVal.lookup (v : PyVal) (key : String) : Option PyVal :=
  match v with
  | .dict items => lookupPairs items key
  | _ => none

/-- Python `str(...)` of a value, used only inside composed message strings;
the rendering of containers is abstracted. -/
def pyValAsString : PyVal → String
  | .str s => s
  | .int n => toString n
  | .num q => toString q
  | .bool b => toString b
  | .list _ => "<list>"
  | .dict _ => "<dict>"

/-- A store call issued to the vector database by a tool. -/
inductive StoreCall
  | market (entry : PyVal)
  | risk (entry : PyVal)

/-- `FetchMarketNewsTool._run` (src/tools.py lines 304-367) from the LLM call
onward: `llmResult` is the text returned by the chain, `parsed` the outcome of
`json.loads(llmResult)` (`none` on `JSONDecodeError`), `now` the epoch second
and `ts` the formatted timestamp used in the stored entry. Returns the tool
result and the store calls made to the vector database. -/
def FetchMarketNewsTool_run (industry_value : String) (llmResult : String)
    (parsed : Option PyVal) (now : ℤ) (ts : String) : PyVal × List StoreCall :=
  match parsed with
  | some market_data =>
      let market_entry : PyVal := .dict
        [("id", .str ("market-" ++ toString now)),
         ("type", .str "market_analysis"),
         ("industry", .str industry_value),
         ("timestamp", .str ts),
         ("summary", .str ("Market analysis for " ++ industry_value ++ " industry")),
         ("details", market_data)]
      (market_data, [StoreCall.market market_entry])
  | none =>
      (.dict [("error", .str "Failed to parse market data"),
              ("raw_output", .str llmResult)], [])

/-- The severity lookup `severity_map.get(risk.get("severity", "Medium"), 0.6)`
of `IdentifyExternalRisksTool._run` (src/tools.py lines 695-704). -/
def severityOf (risk : PyVal) : ℚ :=
  match (risk.lookup "severity").getD (.str "Medium") with
  | .str "Low" => 3/10
  | .str "Medium" => 6/10
  | .str "High" => 9/10
  | _ => 6/10

/-- The `external_risks` list of the parsed LLM output,
`external_risks.get("external_risks", [])` (src/tools.py line 694). -/
def externalRisksItems (external_risks : PyVal) : List PyVal :=
  match external_risks.lookup "external_risks" with
  | some (.list items) => items
  | _ => []

/-- The risk entry stored for one identified external risk (src/tools.py lines
697-711). -/
def externalRiskEntry (pid : String) (now : ℤ) (ts : String) (idx : ℕ)
    (risk : PyVal) : PyVal :=
  .dict
    [("id", .str ("r-ext-" ++ pid ++ "-" ++ toString now ++ "-" ++ toString idx)),
     ("project_id", .str pid),
     ("name", (risk.lookup "name").getD (.str "Unnamed External Risk")),
     ("description", (risk.lookup "description").getD (.str "No description")),
     ("category", .str "External"),
     ("probability", .num (1/2)),
     ("impact", .num (severityOf risk)),
     ("status", .str "Active"),
     ("mitigation", .str ("Monitoring: "
        ++ pyValAsString ((risk.lookup "monitoring").getD (.str "No monitoring strategy"))
        ++ "\n\nImpact: "
        ++ pyValAsString ((risk.lookup "impact").getD (.str "Unknown impact")))),
     ("source", .str "External Risk Analysis"),
     ("timestamp", .str ts)]

/-- `IdentifyExternalRisksTool._run` (src/tools.py lines 601-719) from the LLM
call onward: `project` is the result of the optional `get_project_by_id` call,
`parsed` the outcome of `json.loads` on the LLM text. On success with a project
given, one risk entry per identified external risk is stored. -/
def IdentifyExternalRisksTool_run (project : Option PyVal) (project_id : Option String)
    (llmResult : String) (parsed : Option PyVal) (now : ℤ) (ts : String) :
    PyVal × List StoreCall :=
  match parsed with
  | some external_risks =>
      let stores :=
        match project, project_id with
        | some _, some pid =>
            (externalRisksItems external_risks).mapIdx fun idx risk =>
              StoreCall.risk (externalRiskEntry pid now ts idx risk)
        | _, _ => []
      (external_risks, stores)
  | none =>
      (.dict [("error", .str "Failed to parse external risks data"),
              ("raw_output", .str llmResult)], [])

/-- `AnalyzeProjectHealthTool._run` (src/tools.py lines 743-823): `project` is
the result of the external `get_project_by_id` call, `risks` the risks fetched
for the project, `parsed` the outcome of `json.loads` on the LLM text. The tool
issues no store call at all. -/
def AnalyzeProjectHealthTool_run (project_id : String) (project : Option PyVal)
    (risks : List Risk) (llmResult : String) (parsed : Option PyVal) :
    PyVal × List StoreCall :=
  match project with
  | none => (.dict [("error", .str ("Project with ID " ++ project_id ++ " not found"))], [])
  | some project =>
      let risk_score := calculate_risk_score risks
      let risk_level := (get_risk_level risk_score).value
      match parsed with
      | some health_analysis =>
          (.dict [("project_id", .str project_id),
                  ("project_name", (project.lookup "name").getD (.str "Unnamed Project")),
                  ("risk_score", .int risk_score),
                  ("risk_level", .str risk_level),
                  ("health_analysis", health_analysis)], [])
      | none =>
          (.dict [("project_id", .str project_id),
                  ("project_name", (project.lookup "name").getD (.str "Unnamed Project")),
                  ("risk_score", .int risk_score),
                  ("risk_level", .str risk_level),
                  ("error", .str "Failed to parse health analysis"),
                  ("raw_output", .str llmResult)], [])

/-- C8: whenever the JSON parse of the LLM output fails (`parsed = none`), each
of the three tools returns a dict holding both an error message and the raw LLM
text under raw_output, and issues no store call to the vector database. -/
theorem C8_parse_failure_no_store (industry_value llmResult : String) (now : ℤ)
    (ts : String) (project : Option PyVal) (project_id : Option String)
    (pid : String) (proj : PyVal) (risks : List Risk) :
    ((FetchMarketNewsTool_run industry_value llmResult none now ts).1.lookup "error"
        = some (.str "Failed to parse market data")
      ∧ (FetchMarketNewsTool_run industry_value llmResult none now ts).1.lookup "raw_output"
        = some (.str llmResult)
      ∧ (FetchMarketNewsTool_run industry_value llmResult none now ts).2 = [])
    ∧ ((IdentifyExternalRisksTool_run project project_id llmResult none now ts).1.lookup "error"
        = some (.str "Failed to parse external risks data")
      ∧ (IdentifyExternalRisksTool_run project project_id llmResult none now ts).1.lookup
          "raw_output" = some (.str llmResult)
      ∧ (IdentifyExternalRisksTool_run project project_id llmResult none now ts).2 = [])
    ∧ ((AnalyzeProjectHealthTool_run pid (some proj) risks llmResult none).1.lookup "error"
        = some (.str "Failed to parse health analysis")
      ∧ (AnalyzeProjectHealthTool_run pid (some proj) risks llmResult none).1.lookup
          "raw_output" = some (.str llmResult)
      ∧ (AnalyzeProjectHealthTool_run pid (some proj) risks llmResult none).2 = []) :=
  ⟨⟨rfl, rfl, rfl⟩, ⟨rfl, rfl, rfl⟩, ⟨rfl, rfl, rfl⟩⟩

/-- `data_handlers.get_embedding` (src/data_handlers.py lines 87-106): `call` is
the outcome of the OpenAI embeddings request; on any exception it logs and
returns a zero vector of length 1536. -/
def get_embedding (call : Except String (List ℚ)) : List ℚ :=
  match call with
  | .ok response => response
  | .error _ => List.replicate 1536 0

/-- `data_handlers.store_risk_data` (src/data_handlers.py lines 158-208) around
the upsert: on success it returns the risk id computed before the try block; on
an exception from the vector database it logs and re-raises, modeled by
returning the error. -/
def store_risk_data (risk_id : String) (upsertOutcome : Except String Unit) :
    Except String String :=
  match upsertOutcome with
  | .ok _ => .ok risk_id
  | .error e => .error e

/-- `data_handlers.query_projects` (src/data_handlers.py lines 314-354): `call`
is the outcome of the vector-database query; on an exception it logs and
returns the empty list. -/
def query_projects (call : Except String (List PyVal)) : List PyVal :=
  match call with
  | .ok projects => projects
  | .error _ => []

/-- `data_handlers.get_project_by_id` (src/data_handlers.py lines 409-435): on
an exception it logs and returns `None`. -/
def get_project_by_id (call : Except String (Option PyVal)) : Option PyVal :=
  match call with
  | .ok result => result
  | .error _ => none

/-- C9 counterexample: `store_risk_data` re-raises the exception of a failed
vector-database upsert, so the exception does propagate to the caller,
contradicting the claim that no exception from an external call propagates. -/
theorem C9_counterexample :
    store_risk_data "r-101" (Except.error "connection refused")
      = Except.error "connection refused" := rfl

/-- C9 amended: `get_embedding` falls back to an all-zero vector of length 1536
and the query/get data handlers fall back to an empty list or None, so no
exception propagates from them; the store_* data handlers however log and
re-raise, so their exceptions do propagate to the caller. -/
theorem C9_amended_fallbacks :
    (∀ e : String, get_embedding (Except.error e) = List.replicate 1536 0)
    ∧ (∀ e : String, (get_embedding (Except.error e)).length = 1536)
    ∧ (∀ e : String, query_projects (Except.error e) = [])
    ∧ (∀ e : String, get_project_by_id (Except.error e) = none)
    ∧ (∀ rid e : String, store_risk_data rid (Except.error e) = Except.error e) :=
  ⟨fun _ => rfl,
   fun e => by
     rw [show get_embedding (Except.error e) = List.replicate 1536 0 from rfl,
       List.length_replicate],
   fun _ => rfl, fun _ => rfl, fun _ _ => rfl⟩

end ProjectRiskReport
